import Mathlib

/-!
# PanGo — capture orchestration subsystem, shallow embedding

A shallow embedding of the PanGo pan/tilt photography controller
(geometry planner, capture sequencer, web admission/cancellation layer),
with theorems checking the natural-language specification against it.

Conventions of the embedding:
* Go `float64` arithmetic is idealised as exact arithmetic: `ℝ` where the
  source uses transcendental functions (`math.Atan`, `math.Pi`), `ℚ` for
  the web layer's plain comparisons and time arithmetic (the source's
  NaN/Inf guards have no rational counterpart and are dropped; they are
  unreachable for the range checks modelled here).
* Go `int(x)` conversion of a `float64` truncates toward zero; this is
  `truncTowardZero` below.
* Effectful code (motor moves, shutter triggering, context polling,
  status broadcasting) is embedded as a deterministic interpreter over an
  explicit environment (`Env`) that fixes the outcome of every hardware
  call and every cancellation poll, and an explicit state carrying the
  trace of issued operations.
-/

namespace PanGo

/-! ## Configuration (internal/config/config.go) -/

/-- `config.StepperConfig`: per-axis stepper parameters. -/
structure StepperConf where
  stepsPerRev : ℤ
  microstepping : ℤ
deriving DecidableEq

/-- `config.SensorConfig`: sensor dimensions in millimetres. -/
structure SensorConf where
  widthMm : ℝ
  heightMm : ℝ

/-- `config.LensConfig`: lens focal length in millimetres. -/
structure LensConf where
  focalLengthMm : ℝ

/-- `config.Defaults`: default capture parameters. -/
structure DefaultsConf where
  overlapPercent : ℝ
  horizontalAngleDeg : ℝ
  verticalAngleDeg : ℝ

/-- `config.Config` (the fields the planner consumes).  The source stores
`Sensor` behind a pointer and `NewFOVCalculator` rejects a nil pointer
before any geometry runs; the embedding keeps the sensor inline since
every claim lives downstream of that guard. -/
structure Config where
  sensor : SensorConf
  lens : LensConf
  defaults : DefaultsConf
  panStepper : StepperConf
  tiltStepper : StepperConf

/-- `Config.OverlapRatio`: overlap as a ratio in [0,1]. -/
noncomputable def Config.OverlapRatio (c : Config) : ℝ :=
  c.defaults.overlapPercent / 100

/-- `Config.HorizontalAngleDeg`. -/
def Config.HorizontalAngleDeg (c : Config) : ℝ :=
  c.defaults.horizontalAngleDeg

/-- `Config.VerticalAngleDeg`. -/
def Config.VerticalAngleDeg (c : Config) : ℝ :=
  c.defaults.verticalAngleDeg

/-- `Config.HorizontalHalfAngleDeg`. -/
noncomputable def Config.HorizontalHalfAngleDeg (c : Config) : ℝ :=
  c.defaults.horizontalAngleDeg / 2

/-- `Config.VerticalHalfAngleDeg`. -/
noncomputable def Config.VerticalHalfAngleDeg (c : Config) : ℝ :=
  c.defaults.verticalAngleDeg / 2

/-! ## Field of view (internal/logic/geometry/fov.go) -/

/-- `geometry.FOVCalculator`: wraps the configuration it reads. -/
structure FOVCalculator where
  cfg : Config

/-- `FOVCalculator.HorizontalFOV`:
`2 × atan(sensor_width / (2 × focal_length)) × 180 / π`. -/
noncomputable def FOVCalculator.HorizontalFOV (f : FOVCalculator) : ℝ :=
  2 * Real.arctan (f.cfg.sensor.widthMm / (2 * f.cfg.lens.focalLengthMm)) * 180 / Real.pi

/-- `FOVCalculator.VerticalFOV`:
`2 × atan(sensor_height / (2 × focal_length)) × 180 / π`. -/
noncomputable def FOVCalculator.VerticalFOV (f : FOVCalculator) : ℝ :=
  2 * Real.arctan (f.cfg.sensor.heightMm / (2 * f.cfg.lens.focalLengthMm)) * 180 / Real.pi

/-- `FOVCalculator.HorizontalRotationAngle`: `FOV_h × (1 − overlap_ratio)`. -/
noncomputable def FOVCalculator.HorizontalRotationAngle (f : FOVCalculator) : ℝ :=
  f.HorizontalFOV * (1 - f.cfg.OverlapRatio)

/-- `FOVCalculator.VerticalRotationAngle`: `FOV_v × (1 − overlap_ratio)`. -/
noncomputable def FOVCalculator.VerticalRotationAngle (f : FOVCalculator) : ℝ :=
  f.VerticalFOV * (1 - f.cfg.OverlapRatio)

/-! ## Angle → step conversion (internal/logic/geometry/steps.go) -/

/-- Go's `int(x)` conversion of a `float64`: truncation toward zero
(floor for non-negative values, ceiling for negative ones). -/
noncomputable def truncTowardZero (x : ℝ) : ℤ :=
  if 0 ≤ x then ⌊x⌋ else ⌈x⌉

/-- `geometry.StepsCalculator`: per-axis microsteps-per-degree factors. -/
structure StepsCalculator where
  panStepsPerDegree : ℝ
  tiltStepsPerDegree : ℝ

/-- `geometry.NewStepsCalculator`: derives the per-degree factors from the
configured steps-per-revolution and microstepping of each axis. -/
noncomputable def NewStepsCalculator (cfg : Config) : StepsCalculator :=
  let panMicrostepsPerRev : ℝ := ((cfg.panStepper.stepsPerRev * cfg.panStepper.microstepping : ℤ) : ℝ)
  let tiltMicrostepsPerRev : ℝ := ((cfg.tiltStepper.stepsPerRev * cfg.tiltStepper.microstepping : ℤ) : ℝ)
  { panStepsPerDegree := panMicrostepsPerRev / 360
    tiltStepsPerDegree := tiltMicrostepsPerRev / 360 }

/-- `StepsCalculator.PanStepsFromAngle`: `int(angle × panStepsPerDegree)`. -/
noncomputable def StepsCalculator.PanStepsFromAngle (s : StepsCalculator) (angleDegrees : ℝ) : ℤ :=
  truncTowardZero (angleDegrees * s.panStepsPerDegree)

/-- `StepsCalculator.TiltStepsFromAngle`: `int(angle × tiltStepsPerDegree)`. -/
noncomputable def StepsCalculator.TiltStepsFromAngle (s : StepsCalculator) (angleDegrees : ℝ) : ℤ :=
  truncTowardZero (angleDegrees * s.tiltStepsPerDegree)

/-! ## Grid planner (internal/logic/geometry/grid.go) -/

/-- `geometry.GridPlan`: the immutable plan of a capture run. -/
structure GridPlan where
  PanColumns : ℤ
  TiltRows : ℤ
  PanStepSize : ℤ
  TiltStepSize : ℤ
  StartPanAngle : ℝ
  StartTiltAngle : ℝ
  StartPanSteps : ℤ
  StartTiltSteps : ℤ

/-- `geometry.CalculateGridPlan`: column/row counts by `int(math.Ceil(·))`
clamped to a minimum of 1, step sizes and start offsets by truncation. -/
noncomputable def CalculateGridPlan (cfg : Config) (fovCalc : FOVCalculator)
    (stepsCalc : StepsCalculator) : GridPlan :=
  let panRotationAngle := fovCalc.HorizontalRotationAngle
  let tiltRotationAngle := fovCalc.VerticalRotationAngle
  let totalPanAngle := cfg.HorizontalAngleDeg
  let totalTiltAngle := cfg.VerticalAngleDeg
  let panColumns0 : ℤ := ⌈totalPanAngle / panRotationAngle⌉
  let tiltRows0 : ℤ := ⌈totalTiltAngle / tiltRotationAngle⌉
  let panColumns : ℤ := if panColumns0 < 1 then 1 else panColumns0
  let tiltRows : ℤ := if tiltRows0 < 1 then 1 else tiltRows0
  let panStepSize := stepsCalc.PanStepsFromAngle panRotationAngle
  let tiltStepSize := stepsCalc.TiltStepsFromAngle tiltRotationAngle
  let startPanAngle := -cfg.HorizontalHalfAngleDeg
  let startTiltAngle := cfg.VerticalHalfAngleDeg
  let startPanSteps := stepsCalc.PanStepsFromAngle startPanAngle
  let startTiltSteps := stepsCalc.TiltStepsFromAngle startTiltAngle
  { PanColumns := panColumns
    TiltRows := tiltRows
    PanStepSize := panStepSize
    TiltStepSize := tiltStepSize
    StartPanAngle := startPanAngle
    StartTiltAngle := startTiltAngle
    StartPanSteps := startPanSteps
    StartTiltSteps := startTiltSteps }

/-! ## Capture sequencer (internal/logic/capture/sequence.go)

The sequencer's effects are embedded as a deterministic interpreter.
An `Env` fixes the outcome of the k-th context poll / motor move /
shutter trigger; a `SeqState` carries the trace of issued hardware
operations and the per-operation call counters.  `time.Sleep` and debug
logging perform no observable hardware action and are not traced. -/

/-- One hardware operation issued by the sequencer, at the
`motion.Controller` / `camera.Camera` call level. -/
inductive Ev
  | movePan (steps : ℤ)
  | moveTilt (steps : ℤ)
  | enable
  | disable
  | shoot
deriving DecidableEq

/-- Environment: outcome of the k-th poll/call of each kind.
`ctxDone k` is the k-th `select ctx.Done()` poll; `panOk`/`tiltOk`/
`shootOk k` tell whether the k-th `MovePan`/`MoveTilt`/`Shoot` succeeds. -/
structure Env where
  ctxDone : Nat → Bool
  panOk : Nat → Bool
  tiltOk : Nat → Bool
  shootOk : Nat → Bool

/-- Interpreter state: the trace so far and the call counters. -/
structure SeqState where
  trace : List Ev
  checks : Nat
  panMoves : Nat
  tiltMoves : Nat
  shootCalls : Nat
deriving DecidableEq

/-- Fresh interpreter state. -/
def SeqState.init : SeqState := ⟨[], 0, 0, 0, 0⟩

/-- The error a sequencer run terminates with (`nil` is modelled by
`Option.none` at the call sites). `cancelled` is `ctx.Err()`;
the `hw*` constructors are propagated stepper/camera errors. -/
inductive RunError
  | cancelled
  | hwPan
  | hwTilt
  | hwShoot
deriving DecidableEq

/-- Record a context poll (`select ctx.Done()`). -/
def bumpCheck (st : SeqState) : SeqState :=
  { st with checks := st.checks + 1 }

/-- Record a `MovePan` call. -/
def emitPan (st : SeqState) (steps : ℤ) : SeqState :=
  { st with trace := st.trace ++ [Ev.movePan steps], panMoves := st.panMoves + 1 }

/-- Record a `MoveTilt` call. -/
def emitTilt (st : SeqState) (steps : ℤ) : SeqState :=
  { st with trace := st.trace ++ [Ev.moveTilt steps], tiltMoves := st.tiltMoves + 1 }

/-- Record an `EnableMotors` call (both axes; errors are discarded by the
sequencer with `_ =`). -/
def emitEnable (st : SeqState) : SeqState :=
  { st with trace := st.trace ++ [Ev.enable] }

/-- Record a `DisableMotors` call (errors discarded with `_ =`). -/
def emitDisable (st : SeqState) : SeqState :=
  { st with trace := st.trace ++ [Ev.disable] }

/-- Record a `camera.Shoot` call. -/
def emitShoot (st : SeqState) : SeqState :=
  { st with trace := st.trace ++ [Ev.shoot], shootCalls := st.shootCalls + 1 }

/-- `Sequence.InitializePosition`: move pan then tilt to the plan's start
offset, skipping an axis whose start-step value is exactly zero;
a failed move propagates its error. -/
def InitializePosition (env : Env) (plan : GridPlan) (st : SeqState) :
    SeqState × Option RunError :=
  let panRes : SeqState × Option RunError :=
    if plan.StartPanSteps ≠ 0 then
      let ok := env.panOk st.panMoves
      let stm := emitPan st plan.StartPanSteps
      if ok then (stm, none) else (stm, some RunError.hwPan)
    else (st, none)
  if panRes.2.isSome then panRes
  else
    if plan.StartTiltSteps ≠ 0 then
      let ok := env.tiltOk panRes.1.tiltMoves
      let stm := emitTilt panRes.1 plan.StartTiltSteps
      if ok then (stm, none) else (stm, some RunError.hwTilt)
    else (panRes.1, none)

/-- The inner row loop of `Sequence.RunGridShot`
(`for row := 0; row < plan.TiltRows; row++`), with `rows` the remaining
iterations and `row` the current index.  Each iteration: context poll,
tilt move when `row > 0` (sign by column direction), motor disable,
shutter trigger (re-enabling motors before propagating a failure),
motor re-enable. -/
def runRows (env : Env) (plan : GridPlan) (goingDown : Bool) :
    Nat → Nat → SeqState → SeqState × Option RunError
  | 0, _, st => (st, none)
  | rows + 1, row, st =>
    if env.ctxDone st.checks then (bumpCheck st, some RunError.cancelled)
    else
      let stc := bumpCheck st
      let moveRes : SeqState × Option RunError :=
        if row > 0 then
          let steps := if goingDown then -plan.TiltStepSize else plan.TiltStepSize
          let ok := env.tiltOk stc.tiltMoves
          let stm := emitTilt stc steps
          if ok then (stm, none) else (stm, some RunError.hwTilt)
        else (stc, none)
      if moveRes.2.isSome then moveRes
      else
        let std := emitDisable moveRes.1
        let ok := env.shootOk std.shootCalls
        let sts := emitShoot std
        if ok then
          runRows env plan goingDown rows (row + 1) (emitEnable sts)
        else (emitEnable sts, some RunError.hwShoot)

/-- The outer column loop of `Sequence.RunGridShot`
(`for col := 0; col < plan.PanColumns; col++`): context poll, serpentine
direction by column parity, the row loop, then a pan shift except after
the last column. -/
def runCols (env : Env) (plan : GridPlan) :
    Nat → Nat → SeqState → SeqState × Option RunError
  | 0, _, st => (st, none)
  | cols + 1, col, st =>
    if env.ctxDone st.checks then (bumpCheck st, some RunError.cancelled)
    else
      let stc := bumpCheck st
      let goingDown := col % 2 == 0
      let rowRes := runRows env plan goingDown plan.TiltRows.toNat 0 stc
      if rowRes.2.isSome then rowRes
      else
        if (col : ℤ) < plan.PanColumns - 1 then
          let ok := env.panOk rowRes.1.panMoves
          let stm := emitPan rowRes.1 plan.PanStepSize
          if ok then runCols env plan cols (col + 1) stm
          else (stm, some RunError.hwPan)
        else runCols env plan cols (col + 1) rowRes.1

/-- `Sequence.RunGridShot`: initial motor enable (result discarded),
move to the start position, then the serpentine column traversal. -/
def RunGridShot (env : Env) (plan : GridPlan) : SeqState × Option RunError :=
  let st0 := emitEnable SeqState.init
  let ini := InitializePosition env plan st0
  if ini.2.isSome then ini
  else runCols env plan plan.PanColumns.toNat 0 ini.1

/-- Number of shutter triggers in a trace. -/
def shotCount (t : List Ev) : Nat :=
  t.countP fun e => e == Ev.shoot

/-- Fold step tracking the most recent holding-torque operation:
`some true` after an enable, `some false` after a disable. -/
def torqueStep (acc : Option Bool) (e : Ev) : Option Bool :=
  match e with
  | Ev.enable => some true
  | Ev.disable => some false
  | _ => acc

/-- The last holding-torque operation of a trace, if any
(`some true` = enable last, `some false` = disable last). -/
def lastTorque (t : List Ev) : Option Bool :=
  t.foldl torqueStep none

/-! ## Web layer (internal/web/handlers.go)

Time values are rationals counted in seconds.  The source's NaN/Infinity
guards have no rational counterpart; they are dropped (a rational value
is always finite, so those branches are unreachable in the embedding). -/

/-- `web.Overrides`: capture parameters of a `POST /run` request.  A JSON
field that is absent decodes to `0`. -/
structure Overrides where
  horizontalAngleDeg : ℚ
  verticalAngleDeg : ℚ
  focalLengthMm : ℚ
deriving DecidableEq

/-- `web.minDelayBetweenCaptures` (5 seconds). -/
def minDelayBetweenCaptures : ℚ := 5

/-- `web.ValidateOverrides`: range checks, in source order; `some msg`
models a non-nil `error`. -/
def ValidateOverrides (o : Overrides) : Option String :=
  if o.horizontalAngleDeg ≤ 0 ∨ 360 < o.horizontalAngleDeg then
    some "horizontal_angle_deg must be between 1 and 360"
  else if o.verticalAngleDeg ≤ 0 ∨ 180 < o.verticalAngleDeg then
    some "vertical_angle_deg must be between 1 and 180"
  else if o.focalLengthMm ≤ 0 ∨ 500 < o.focalLengthMm then
    some "focal_length_mm must be between 1 and 500"
  else none

/-- The admission-relevant mutable state of `web.Handlers`:
the running flag, the rate-limit timestamp, and whether a cancellation
handle is stored (`captureCancel != nil`). -/
structure HState where
  running : Bool
  lastCaptureAt : ℚ
  captureCancel : Bool
deriving DecidableEq

/-- Outcome of the `POST /run` admission path (`HandleRun` up to spawning
the capture goroutine). -/
inductive RunResp
  | badRequest (msg : String)   -- 400, validation failure
  | notConfigured               -- 503, RunCapture == nil
  | alreadyRunning              -- 409, "capture already in progress"
  | rateLimited                 -- 429, "please wait before starting another capture"
  | accepted                    -- 202, {"status": "started"}
deriving DecidableEq

/-- `Handlers.HandleRun`, admission path: validation, configuration
check, running-flag check, rate-limit check, then timestamp/handle
update.  Returns the response, the resulting handler state, and whether
a capture goroutine was started. -/
def HandleRun (configured : Bool) (st : HState) (now : ℚ) (o : Overrides) :
    RunResp × HState × Bool :=
  match ValidateOverrides o with
  | some msg => (RunResp.badRequest msg, st, false)
  | none =>
    if !configured then (RunResp.notConfigured, st, false)
    else if st.running then (RunResp.alreadyRunning, st, false)
    else
      let st1 := { st with running := true }
      if 0 < minDelayBetweenCaptures - (now - st1.lastCaptureAt) then
        (RunResp.rateLimited, { st1 with running := false }, false)
      else
        let st2 := { st1 with lastCaptureAt := now }
        let st3 := { st2 with captureCancel := true }
        (RunResp.accepted, st3, true)

/-- Outcome of `POST /cancel`. -/
inductive CancelResp
  | noCapture   -- 409, "no capture in progress"
  | ok          -- 200, {"status": "cancelled", ...}
deriving DecidableEq

/-- `Handlers.HandleCancel`: reject when no cancellation handle is
stored, otherwise invoke it.  The returned flag tells whether the stored
`cancel` function was called. -/
def HandleCancel (st : HState) : CancelResp × Bool :=
  if st.captureCancel then (CancelResp.ok, true) else (CancelResp.noCapture, false)

/-- Severity of a broadcast status event. -/
inductive Level
  | info
  | warning
  | error
deriving DecidableEq

/-- The error `RunCapture` returned to the capture goroutine:
`canceled` when `errors.Is(err, context.Canceled)` holds, otherwise the
hardware failure text. -/
inductive CapErr
  | canceled
  | hw (msg : String)
deriving DecidableEq

/-- An observable action of the capture goroutine's completion path. -/
inductive WebAct
  | publish (lv : Level) (msg : String)
  | clearCancel
  | clearRunning
deriving DecidableEq

/-- The completion path of the goroutine spawned by `HandleRun`
(handlers.go lines 165–187): the function body broadcasts the terminal
status event, then the deferred cleanup runs — clearing `captureCancel`
first, then `running`. -/
def completionActs (r : Option CapErr) : List WebAct :=
  (match r with
   | some CapErr.canceled => [WebAct.publish Level.warning "Capture cancelled by user"]
   | some (CapErr.hw msg) => [WebAct.publish Level.error ("Capture failed: " ++ msg)]
   | none => [WebAct.publish Level.info "Sequence complete"])
  ++ [WebAct.clearCancel, WebAct.clearRunning]

/-- Is the action a status-event publication? -/
def WebAct.isPublish : WebAct → Bool
  | WebAct.publish _ _ => true
  | _ => false

/-- Is the action the clearing of the cancellation handle? -/
def WebAct.isClearCancel : WebAct → Bool
  | WebAct.clearCancel => true
  | _ => false

/-- Is the action the clearing of the running flag? -/
def WebAct.isClearRunning : WebAct → Bool
  | WebAct.clearRunning => true
  | _ => false

/-- The ordering property §4.6 asserts of the completion path: both the
cancel-handle clear and the running-flag clear occur strictly before the
terminal publish. -/
def clearsBeforePublish (l : List WebAct) : Bool :=
  match l.findIdx? WebAct.isPublish, l.findIdx? WebAct.isClearCancel,
      l.findIdx? WebAct.isClearRunning with
  | some ip, some ic, some ir => if ic < ip ∧ ir < ip then true else false
  | _, _, _ => false

/-! ## Theorems: web admission and completion (C2–C6) -/

lemma validate_zero_some (o : Overrides)
    (h : o.horizontalAngleDeg = 0 ∨ o.verticalAngleDeg = 0 ∨ o.focalLengthMm = 0) :
    ∃ msg, ValidateOverrides o = some msg := by
  rcases h with h | h | h
  · exact ⟨"horizontal_angle_deg must be between 1 and 360",
      by simp [ValidateOverrides, h]⟩
  · by_cases h1 : o.horizontalAngleDeg ≤ 0 ∨ 360 < o.horizontalAngleDeg
    · exact ⟨"horizontal_angle_deg must be between 1 and 360",
        by simp only [ValidateOverrides, if_pos h1]⟩
    · exact ⟨"vertical_angle_deg must be between 1 and 180",
        by simp [ValidateOverrides, h1, h]⟩
  · by_cases h1 : o.horizontalAngleDeg ≤ 0 ∨ 360 < o.horizontalAngleDeg
    · exact ⟨"horizontal_angle_deg must be between 1 and 360",
        by simp only [ValidateOverrides, if_pos h1]⟩
    · by_cases h2 : o.verticalAngleDeg ≤ 0 ∨ 180 < o.verticalAngleDeg
      · exact ⟨"vertical_angle_deg must be between 1 and 180",
          by simp only [ValidateOverrides, if_neg h1, if_pos h2]⟩
      · exact ⟨"focal_length_mm must be between 1 and 500",
          by simp [ValidateOverrides, h1, h2, h]⟩

/-- C3 counterexample: a Start request whose horizontal angle is zero is
rejected (HTTP 400, validation failure) and starts no capture, even with
a configured handler in an idle, cooled-down state — the code never
substitutes the configured default for a zero parameter. -/
theorem start_zero_rejected_counterexample :
    (HandleRun true ⟨false, 0, false⟩ 100 ⟨0, 90, 35⟩).2.2 = false ∧
    (HandleRun true ⟨false, 0, false⟩ 100 ⟨0, 90, 35⟩).1
      = RunResp.badRequest "horizontal_angle_deg must be between 1 and 360" :=
  ⟨rfl, rfl⟩

/-- C3 (amended): a Start request whose horizontal angle, vertical angle,
or focal-length override is zero (or absent, which decodes to zero) is
rejected with 400 Bad Request by `ValidateOverrides`; the handler state
is unchanged and no capture is started. -/
theorem start_zero_rejected (configured : Bool) (st : HState) (now : ℚ) (o : Overrides)
    (h : o.horizontalAngleDeg = 0 ∨ o.verticalAngleDeg = 0 ∨ o.focalLengthMm = 0) :
    ∃ msg, HandleRun configured st now o = (RunResp.badRequest msg, st, false) := by
  obtain ⟨msg, hm⟩ := validate_zero_some o h
  exact ⟨msg, by simp [HandleRun, hm]⟩

/-- Witness for C3 (amended) at a concrete zero-valued request. -/
theorem start_zero_rejected_witness :
    ((0 : ℚ) = 0 ∨ (90 : ℚ) = 0 ∨ (35 : ℚ) = 0) ∧
    ∃ msg, HandleRun true ⟨false, 0, false⟩ 100 ⟨0, 90, 35⟩
      = (RunResp.badRequest msg, ⟨false, 0, false⟩, false) :=
  ⟨Or.inl rfl, start_zero_rejected true ⟨false, 0, false⟩ 100 ⟨0, 90, 35⟩ (Or.inl rfl)⟩

/-- C4: while the running flag is true, a second StartRun with valid
parameters is rejected as already-running (409), starts no capture, and
leaves the whole handler state — running flag, rate-limit timestamp and
cancellation handle — unchanged. -/
theorem start_while_running_conflict (st : HState) (now : ℚ) (o : Overrides)
    (hv : ValidateOverrides o = none) (hr : st.running = true) :
    HandleRun true st now o = (RunResp.alreadyRunning, st, false) := by
  simp [HandleRun, hv, hr]

/-- Witness for C4 at a concrete in-flight state and valid request. -/
theorem start_while_running_conflict_witness :
    ValidateOverrides ⟨180, 90, 35⟩ = none ∧
    HandleRun true ⟨true, 0, true⟩ 100 ⟨180, 90, 35⟩
      = (RunResp.alreadyRunning, ⟨true, 0, true⟩, false) :=
  ⟨by decide,
   start_while_running_conflict ⟨true, 0, true⟩ 100 ⟨180, 90, 35⟩ (by decide) rfl⟩

/-- C5: a StartRun rejected as rate-limited (last start within the
5-second minimum interval of now) starts no capture and leaves the state
exactly as it was: the running flag is restored to false and the stored
last-capture timestamp is not advanced. -/
theorem rate_limited_rejection (st : HState) (now : ℚ) (o : Overrides)
    (hv : ValidateOverrides o = none) (hr : st.running = false)
    (hd : now - st.lastCaptureAt < minDelayBetweenCaptures) :
    HandleRun true st now o = (RunResp.rateLimited, st, false) := by
  obtain ⟨r, last, c⟩ := st
  simp only at hr
  subst hr
  have h5 : 0 < minDelayBetweenCaptures - (now - last) := by
    simpa using sub_pos.mpr hd
  simp [HandleRun, hv, h5]

/-- Witness for C5 at a concrete cooled-down-violating time. -/
theorem rate_limited_rejection_witness :
    ValidateOverrides ⟨180, 90, 35⟩ = none ∧
    ((3 : ℚ) - 0 < minDelayBetweenCaptures) ∧
    HandleRun true ⟨false, 0, false⟩ 3 ⟨180, 90, 35⟩
      = (RunResp.rateLimited, ⟨false, 0, false⟩, false) :=
  ⟨by decide, by norm_num [minDelayBetweenCaptures],
   rate_limited_rejection ⟨false, 0, false⟩ 3 ⟨180, 90, 35⟩ (by decide) rfl
     (by norm_num [minDelayBetweenCaptures])⟩

/-- C2 counterexample: on the success completion path the terminal event
is published while the cancellation handle and the running flag are
still set — the two clears do NOT precede the publish (they are the
deferred cleanup, which runs after the goroutine body's broadcast). -/
theorem completion_clears_first_counterexample :
    clearsBeforePublish (completionActs none) = false := by
  decide

/-- C2 (amended): on every terminating run (success, hardware error, or
cancellation) the completion path publishes the terminal status event
first, then clears the cancellation handle, then clears the running
flag — the reverse of the order the spec asserts. -/
theorem completion_publish_then_clears (r : Option CapErr) :
    ∃ lv msg, completionActs r
      = [WebAct.publish lv msg, WebAct.clearCancel, WebAct.clearRunning] := by
  match r with
  | none => exact ⟨_, _, rfl⟩
  | some CapErr.canceled => exact ⟨_, _, rfl⟩
  | some (CapErr.hw m) => exact ⟨_, _, rfl⟩

/-! ## Theorems: geometry (C7–C9) -/

/-- C7: for every angle (positive, negative, or zero) and every axis
configuration, the per-axis step conversion equals
`angle × (stepsPerRevolution × microstepping) / 360` truncated toward
zero, and the pan and tilt conversions are independent: each depends
only on its own axis's stepper configuration. -/
theorem steps_from_angle_trunc (cfg cfg' : Config) (a : ℝ) :
    ((NewStepsCalculator cfg).PanStepsFromAngle a
      = truncTowardZero (a * ((cfg.panStepper.stepsPerRev * cfg.panStepper.microstepping : ℤ) : ℝ) / 360))
    ∧ ((NewStepsCalculator cfg).TiltStepsFromAngle a
      = truncTowardZero (a * ((cfg.tiltStepper.stepsPerRev * cfg.tiltStepper.microstepping : ℤ) : ℝ) / 360))
    ∧ (cfg.panStepper = cfg'.panStepper →
        (NewStepsCalculator cfg).PanStepsFromAngle a
          = (NewStepsCalculator cfg').PanStepsFromAngle a)
    ∧ (cfg.tiltStepper = cfg'.tiltStepper →
        (NewStepsCalculator cfg).TiltStepsFromAngle a
          = (NewStepsCalculator cfg').TiltStepsFromAngle a) := by
  refine ⟨?_, ?_, ?_, ?_⟩
  · simp [NewStepsCalculator, StepsCalculator.PanStepsFromAngle, mul_div_assoc]
  · simp [NewStepsCalculator, StepsCalculator.TiltStepsFromAngle, mul_div_assoc]
  · intro h; simp [NewStepsCalculator, StepsCalculator.PanStepsFromAngle, h]
  · intro h; simp [NewStepsCalculator, StepsCalculator.TiltStepsFromAngle, h]

/-- A concrete configuration for witnesses (full-frame sensor, 50 mm
lens, 0 % overlap, 200×16 pan and 200×8 tilt microstepping). -/
noncomputable def cfgW : Config :=
  { sensor := ⟨36, 24⟩
    lens := ⟨50⟩
    defaults := ⟨0, 180, 30⟩
    panStepper := ⟨200, 16⟩
    tiltStepper := ⟨200, 8⟩ }

/-- `cfgW` with a longer lens (same sensor and steppers). -/
noncomputable def cfgW2 : Config := { cfgW with lens := ⟨100⟩ }

/-- `cfgW` with a larger sensor (same lens and steppers). -/
noncomputable def cfgW3 : Config := { cfgW with sensor := ⟨54, 40⟩ }

/-- Witness for C7: concrete configurations sharing both stepper
configurations but differing in lens. -/
theorem steps_from_angle_trunc_witness :
    cfgW.panStepper = cfgW2.panStepper ∧ cfgW.tiltStepper = cfgW2.tiltStepper ∧
    (NewStepsCalculator cfgW).PanStepsFromAngle 45
      = (NewStepsCalculator cfgW2).PanStepsFromAngle 45 ∧
    (NewStepsCalculator cfgW).TiltStepsFromAngle (-45)
      = (NewStepsCalculator cfgW2).TiltStepsFromAngle (-45) :=
  ⟨rfl, rfl, (steps_from_angle_trunc cfgW cfgW2 45).2.2.1 rfl,
   (steps_from_angle_trunc cfgW cfgW2 (-45)).2.2.2 rfl⟩

/-- C8: for positive total angles and positive per-axis rotation angles,
the planner's column and row counts are `max 1 ⌈total / rotation⌉`, and
in particular both are at least 1. -/
theorem grid_plan_counts (cfg : Config) (fovCalc : FOVCalculator) (stepsCalc : StepsCalculator)
    (hpa : 0 < cfg.HorizontalAngleDeg) (hta : 0 < cfg.VerticalAngleDeg)
    (hpr : 0 < fovCalc.HorizontalRotationAngle) (htr : 0 < fovCalc.VerticalRotationAngle) :
    (CalculateGridPlan cfg fovCalc stepsCalc).PanColumns
        = max 1 ⌈cfg.HorizontalAngleDeg / fovCalc.HorizontalRotationAngle⌉
    ∧ (CalculateGridPlan cfg fovCalc stepsCalc).TiltRows
        = max 1 ⌈cfg.VerticalAngleDeg / fovCalc.VerticalRotationAngle⌉
    ∧ 1 ≤ (CalculateGridPlan cfg fovCalc stepsCalc).PanColumns
    ∧ 1 ≤ (CalculateGridPlan cfg fovCalc stepsCalc).TiltRows := by
  have hmax : ∀ x : ℤ, (if x < 1 then 1 else x) = max 1 x := by
    intro x
    split_ifs with h
    · exact (max_eq_left h.le).symm
    · exact (max_eq_right (not_lt.mp h)).symm
  have hge : ∀ x : ℤ, 1 ≤ (if x < 1 then 1 else x) := by
    intro x
    split_ifs with h
    · exact le_refl 1
    · exact not_lt.mp h
  refine ⟨?_, ?_, ?_, ?_⟩
  · simpa [CalculateGridPlan] using hmax _
  · simpa [CalculateGridPlan] using hmax _
  · simpa [CalculateGridPlan] using hge _
  · simpa [CalculateGridPlan] using hge _

lemma fovexpr_pos {x : ℝ} (hx : 0 < x) :
    0 < 2 * Real.arctan x * 180 / Real.pi := by
  have h1 : 0 < Real.arctan x := by
    have h2 := Real.arctan_strictMono hx
    rwa [Real.arctan_zero] at h2
  exact div_pos (mul_pos (mul_pos two_pos h1) (by norm_num)) Real.pi_pos

lemma fovexpr_lt {x y : ℝ} (h : x < y) :
    2 * Real.arctan x * 180 / Real.pi < 2 * Real.arctan y * 180 / Real.pi := by
  have h1 : Real.arctan x < Real.arctan y := Real.arctan_strictMono h
  exact (div_lt_div_iff_of_pos_right Real.pi_pos).mpr
    (mul_lt_mul_of_pos_right (mul_lt_mul_of_pos_left h1 two_pos) (by norm_num))

lemma horizontalFOV_pos (c : Config)
    (hf : 0 < c.lens.focalLengthMm) (hw : 0 < c.sensor.widthMm) :
    0 < (FOVCalculator.mk c).HorizontalFOV :=
  fovexpr_pos (div_pos hw (mul_pos two_pos hf))

lemma verticalFOV_pos (c : Config)
    (hf : 0 < c.lens.focalLengthMm) (hh : 0 < c.sensor.heightMm) :
    0 < (FOVCalculator.mk c).VerticalFOV :=
  fovexpr_pos (div_pos hh (mul_pos two_pos hf))

lemma horizontalRotationAngle_pos (c : Config)
    (hf : 0 < c.lens.focalLengthMm) (hw : 0 < c.sensor.widthMm)
    (ho : c.defaults.overlapPercent < 100) :
    0 < (FOVCalculator.mk c).HorizontalRotationAngle := by
  apply mul_pos (horizontalFOV_pos c hf hw)
  have h1 : c.defaults.overlapPercent / 100 < 1 := (div_lt_one (by norm_num)).mpr ho
  simp only [Config.OverlapRatio]
  linarith

lemma verticalRotationAngle_pos (c : Config)
    (hf : 0 < c.lens.focalLengthMm) (hh : 0 < c.sensor.heightMm)
    (ho : c.defaults.overlapPercent < 100) :
    0 < (FOVCalculator.mk c).VerticalRotationAngle := by
  apply mul_pos (verticalFOV_pos c hf hh)
  have h1 : c.defaults.overlapPercent / 100 < 1 := (div_lt_one (by norm_num)).mpr ho
  simp only [Config.OverlapRatio]
  linarith

/-- Witness for C8: `cfgW` has positive total angles and positive
rotation angles, so its plan counts obey the `max 1 ⌈·⌉` formula. -/
theorem grid_plan_counts_witness :
    0 < cfgW.HorizontalAngleDeg ∧ 0 < cfgW.VerticalAngleDeg ∧
    0 < (FOVCalculator.mk cfgW).HorizontalRotationAngle ∧
    0 < (FOVCalculator.mk cfgW).VerticalRotationAngle ∧
    (CalculateGridPlan cfgW (FOVCalculator.mk cfgW) (NewStepsCalculator cfgW)).PanColumns
      = max 1 ⌈cfgW.HorizontalAngleDeg / (FOVCalculator.mk cfgW).HorizontalRotationAngle⌉ ∧
    1 ≤ (CalculateGridPlan cfgW (FOVCalculator.mk cfgW) (NewStepsCalculator cfgW)).PanColumns := by
  have h1 : 0 < cfgW.HorizontalAngleDeg := by
    norm_num [cfgW, Config.HorizontalAngleDeg]
  have h2 : 0 < cfgW.VerticalAngleDeg := by
    norm_num [cfgW, Config.VerticalAngleDeg]
  have h3 : 0 < (FOVCalculator.mk cfgW).HorizontalRotationAngle :=
    horizontalRotationAngle_pos cfgW (by norm_num [cfgW]) (by norm_num [cfgW])
      (by norm_num [cfgW])
  have h4 : 0 < (FOVCalculator.mk cfgW).VerticalRotationAngle :=
    verticalRotationAngle_pos cfgW (by norm_num [cfgW]) (by norm_num [cfgW])
      (by norm_num [cfgW])
  obtain ⟨g1, _, g3, _⟩ :=
    grid_plan_counts cfgW (FOVCalculator.mk cfgW) (NewStepsCalculator cfgW) h1 h2 h3 h4
  exact ⟨h1, h2, h3, h4, g1, g3⟩

/-- C9: for a valid lens/sensor configuration (focal length and sensor
dimensions positive) both FOV angles are strictly positive; each is
strictly decreasing in focal length for a fixed sensor, and strictly
increasing in its sensor dimension for a fixed lens. -/
theorem fov_positive_and_monotone (c c' : Config)
    (hf : 0 < c.lens.focalLengthMm) (hw : 0 < c.sensor.widthMm)
    (hh : 0 < c.sensor.heightMm) :
    (0 < (FOVCalculator.mk c).HorizontalFOV ∧ 0 < (FOVCalculator.mk c).VerticalFOV)
    ∧ (c'.sensor = c.sensor → c.lens.focalLengthMm < c'.lens.focalLengthMm →
        (FOVCalculator.mk c').HorizontalFOV < (FOVCalculator.mk c).HorizontalFOV
        ∧ (FOVCalculator.mk c').VerticalFOV < (FOVCalculator.mk c).VerticalFOV)
    ∧ (c'.lens = c.lens → c.sensor.widthMm < c'.sensor.widthMm →
        (FOVCalculator.mk c).HorizontalFOV < (FOVCalculator.mk c').HorizontalFOV)
    ∧ (c'.lens = c.lens → c.sensor.heightMm < c'.sensor.heightMm →
        (FOVCalculator.mk c).VerticalFOV < (FOVCalculator.mk c').VerticalFOV) := by
  refine ⟨⟨horizontalFOV_pos c hf hw, verticalFOV_pos c hf hh⟩, ?_, ?_, ?_⟩
  · intro hs hfo
    have hf' : 0 < c'.lens.focalLengthMm := lt_trans hf hfo
    constructor
    · unfold FOVCalculator.HorizontalFOV
      rw [hs]
      exact fovexpr_lt (div_lt_div_of_pos_left hw (mul_pos two_pos hf)
        (by linarith))
    · unfold FOVCalculator.VerticalFOV
      rw [hs]
      exact fovexpr_lt (div_lt_div_of_pos_left hh (mul_pos two_pos hf)
        (by linarith))
  · intro hl hws
    unfold FOVCalculator.HorizontalFOV
    rw [hl]
    exact fovexpr_lt ((div_lt_div_iff_of_pos_right (mul_pos two_pos hf)).mpr hws)
  · intro hl hhs
    unfold FOVCalculator.VerticalFOV
    rw [hl]
    exact fovexpr_lt ((div_lt_div_iff_of_pos_right (mul_pos two_pos hf)).mpr hhs)

/-- Witness for C9: a 50 mm vs 100 mm lens on the same 36×24 sensor, and
a 36×24 vs 54×40 sensor behind the same 50 mm lens. -/
theorem fov_positive_and_monotone_witness :
    (0 < (FOVCalculator.mk cfgW).HorizontalFOV ∧ 0 < (FOVCalculator.mk cfgW).VerticalFOV)
    ∧ ((FOVCalculator.mk cfgW2).HorizontalFOV < (FOVCalculator.mk cfgW).HorizontalFOV
        ∧ (FOVCalculator.mk cfgW2).VerticalFOV < (FOVCalculator.mk cfgW).VerticalFOV)
    ∧ (FOVCalculator.mk cfgW).HorizontalFOV < (FOVCalculator.mk cfgW3).HorizontalFOV
    ∧ (FOVCalculator.mk cfgW).VerticalFOV < (FOVCalculator.mk cfgW3).VerticalFOV := by
  have hf : 0 < cfgW.lens.focalLengthMm := by norm_num [cfgW]
  have hw : 0 < cfgW.sensor.widthMm := by norm_num [cfgW]
  have hh : 0 < cfgW.sensor.heightMm := by norm_num [cfgW]
  obtain ⟨p1, p2, _, _⟩ := fov_positive_and_monotone cfgW cfgW2 hf hw hh
  obtain ⟨_, _, p3, p4⟩ := fov_positive_and_monotone cfgW cfgW3 hf hw hh
  exact ⟨p1, p2 rfl (by norm_num [cfgW, cfgW2]),
    p3 rfl (by norm_num [cfgW, cfgW3]), p4 rfl (by norm_num [cfgW, cfgW3])⟩

/-! ## Theorems: capture sequencer (C1, C10, and C6's cancellation part) -/

@[simp] lemma shotCount_append (t l : List Ev) :
    shotCount (t ++ l) = shotCount t + shotCount l :=
  List.countP_append _ _ _

@[simp] lemma shotCount_nil : shotCount [] = 0 := rfl

@[simp] lemma shotCount_cons_movePan (s : ℤ) (t : List Ev) :
    shotCount (Ev.movePan s :: t) = shotCount t := by
  simp [shotCount, List.countP_cons]

@[simp] lemma shotCount_cons_moveTilt (s : ℤ) (t : List Ev) :
    shotCount (Ev.moveTilt s :: t) = shotCount t := by
  simp [shotCount, List.countP_cons]

@[simp] lemma shotCount_cons_enable (t : List Ev) :
    shotCount (Ev.enable :: t) = shotCount t := by
  simp [shotCount, List.countP_cons]

@[simp] lemma shotCount_cons_disable (t : List Ev) :
    shotCount (Ev.disable :: t) = shotCount t := by
  simp [shotCount, List.countP_cons]

@[simp] lemma shotCount_cons_shoot (t : List Ev) :
    shotCount (Ev.shoot :: t) = shotCount t + 1 := by
  simp [shotCount, List.countP_cons, Nat.add_comm]

@[simp] lemma lastTorque_append (t l : List Ev) :
    lastTorque (t ++ l) = List.foldl torqueStep (lastTorque t) l := by
  simp [lastTorque, List.foldl_append]

@[simp] lemma torqueStep_movePan (acc : Option Bool) (s : ℤ) :
    torqueStep acc (Ev.movePan s) = acc := rfl

@[simp] lemma torqueStep_moveTilt (acc : Option Bool) (s : ℤ) :
    torqueStep acc (Ev.moveTilt s) = acc := rfl

@[simp] lemma torqueStep_enable (acc : Option Bool) :
    torqueStep acc Ev.enable = some true := rfl

@[simp] lemma torqueStep_disable (acc : Option Bool) :
    torqueStep acc Ev.disable = some false := rfl

@[simp] lemma torqueStep_shoot (acc : Option Bool) :
    torqueStep acc Ev.shoot = acc := rfl

lemma initPos_ok (env : Env) (plan : GridPlan) (st : SeqState)
    (hp : ∀ k, env.panOk k = true) (ht : ∀ k, env.tiltOk k = true) :
    (InitializePosition env plan st).2 = none := by
  unfold InitializePosition
  by_cases h1 : plan.StartPanSteps ≠ 0 <;>
    by_cases h3 : plan.StartTiltSteps ≠ 0 <;>
      simp [h1, h3, hp, ht, emitPan, emitTilt]

lemma initPos_shotCount (env : Env) (plan : GridPlan) (st : SeqState) :
    shotCount (InitializePosition env plan st).1.trace = shotCount st.trace := by
  unfold InitializePosition
  by_cases h1 : plan.StartPanSteps ≠ 0 <;>
    by_cases h2 : env.panOk st.panMoves = true <;>
      by_cases h3 : plan.StartTiltSteps ≠ 0 <;>
        by_cases h4 : env.tiltOk st.tiltMoves = true <;>
          simp [h1, h2, h3, h4, emitPan, emitTilt]

lemma initPos_lastTorque (env : Env) (plan : GridPlan) (st : SeqState) :
    lastTorque (InitializePosition env plan st).1.trace = lastTorque st.trace := by
  unfold InitializePosition
  by_cases h1 : plan.StartPanSteps ≠ 0 <;>
    by_cases h2 : env.panOk st.panMoves = true <;>
      by_cases h3 : plan.StartTiltSteps ≠ 0 <;>
        by_cases h4 : env.tiltOk st.tiltMoves = true <;>
          simp [h1, h2, h3, h4, emitPan, emitTilt]

lemma runRows_success_count (env : Env) (plan : GridPlan) (gd : Bool)
    (hc : ∀ k, env.ctxDone k = false) (ht : ∀ k, env.tiltOk k = true)
    (hs : ∀ k, env.shootOk k = true) :
    ∀ (rows row : Nat) (st : SeqState),
      (runRows env plan gd rows row st).2 = none ∧
      shotCount (runRows env plan gd rows row st).1.trace = shotCount st.trace + rows := by
  intro rows
  induction rows with
  | zero => intro row st; simp [runRows]
  | succ n ih =>
    intro row st
    by_cases hrow : row > 0
    · have h1 := ih (row + 1)
        (emitEnable (emitShoot (emitDisable
          (emitTilt (bumpCheck st) (if gd then -plan.TiltStepSize else plan.TiltStepSize)))))
      simp only [runRows, hc, ht, hs, hrow, if_true, if_pos, Bool.false_eq_true, if_false,
        Option.isSome_none, Bool.true_eq_false] at h1 ⊢
      refine ⟨h1.1, ?_⟩
      rw [h1.2]
      simp [emitEnable, emitShoot, emitDisable, emitTilt, bumpCheck]
      omega
    · have h1 := ih (row + 1) (emitEnable (emitShoot (emitDisable (bumpCheck st))))
      simp only [runRows, hc, ht, hs, hrow, if_true, if_pos, Bool.false_eq_true, if_false,
        Option.isSome_none, Bool.true_eq_false] at h1 ⊢
      refine ⟨h1.1, ?_⟩
      rw [h1.2]
      simp [emitEnable, emitShoot, emitDisable, bumpCheck]
      omega

lemma runCols_success_count (env : Env) (plan : GridPlan)
    (hc : ∀ k, env.ctxDone k = false) (hp : ∀ k, env.panOk k = true)
    (ht : ∀ k, env.tiltOk k = true) (hs : ∀ k, env.shootOk k = true) :
    ∀ (cols col : Nat) (st : SeqState),
      (runCols env plan cols col st).2 = none ∧
      shotCount (runCols env plan cols col st).1.trace
        = shotCount st.trace + cols * plan.TiltRows.toNat := by
  intro cols
  induction cols with
  | zero => intro col st; simp [runCols]
  | succ n ih =>
    intro col st
    have hrow := runRows_success_count env plan (col % 2 == 0) hc ht hs
      plan.TiltRows.toNat 0 (bumpCheck st)
    by_cases hcol : (col : ℤ) < plan.PanColumns - 1
    · have h1 := ih (col + 1)
        (emitPan (runRows env plan (col % 2 == 0) plan.TiltRows.toNat 0 (bumpCheck st)).1
          plan.PanStepSize)
      simp only [runCols, hc, hp, hrow.1, hcol, if_true, if_pos, Bool.false_eq_true, if_false,
        Option.isSome_none, Bool.true_eq_false] at h1 ⊢
      refine ⟨h1.1, ?_⟩
      rw [h1.2]
      simp only [emitPan, shotCount_append, shotCount_cons_movePan, shotCount_nil]
      rw [hrow.2]
      simp only [bumpCheck]
      rw [Nat.succ_mul]
      omega
    · have h1 := ih (col + 1)
        (runRows env plan (col % 2 == 0) plan.TiltRows.toNat 0 (bumpCheck st)).1
      simp only [runCols, hc, hp, hrow.1, hcol, if_true, if_pos, Bool.false_eq_true, if_false,
        Option.isSome_none, Bool.true_eq_false] at h1 ⊢
      refine ⟨h1.1, ?_⟩
      rw [h1.2]
      rw [hrow.2]
      simp only [bumpCheck]
      rw [Nat.succ_mul]
      omega

/-- C1: when every motor move and shutter trigger succeeds and the
context is never cancelled, a run over an `m ≥ 1` column × `n ≥ 1` row
plan returns success (nil error) and triggers the shutter exactly
`m × n` times. -/
theorem run_grid_shot_success_count (env : Env) (plan : GridPlan)
    (hm : 1 ≤ plan.PanColumns) (hn : 1 ≤ plan.TiltRows)
    (hc : ∀ k, env.ctxDone k = false) (hp : ∀ k, env.panOk k = true)
    (ht : ∀ k, env.tiltOk k = true) (hs : ∀ k, env.shootOk k = true) :
    (RunGridShot env plan).2 = none ∧
    (shotCount (RunGridShot env plan).1.trace : ℤ)
      = plan.PanColumns * plan.TiltRows := by
  have hini := initPos_ok env plan (emitEnable SeqState.init) hp ht
  have hinic := initPos_shotCount env plan (emitEnable SeqState.init)
  have hcols := runCols_success_count env plan hc hp ht hs plan.PanColumns.toNat 0
    (InitializePosition env plan (emitEnable SeqState.init)).1
  unfold RunGridShot
  simp only [hini, Option.isSome_none, Bool.false_eq_true, if_false]
  refine ⟨hcols.1, ?_⟩
  rw [hcols.2, hinic]
  have h0 : shotCount (emitEnable SeqState.init).trace = 0 := rfl
  rw [h0]
  have h1 : ((plan.PanColumns.toNat : ℤ)) = plan.PanColumns :=
    Int.toNat_of_nonneg (by omega)
  have h2 : ((plan.TiltRows.toNat : ℤ)) = plan.TiltRows :=
    Int.toNat_of_nonneg (by omega)
  push_cast
  rw [h1, h2]
  ring

/-- A concrete 2×2 plan for witnesses. -/
noncomputable def planW : GridPlan :=
  { PanColumns := 2
    TiltRows := 2
    PanStepSize := 100
    TiltStepSize := 50
    StartPanAngle := -90
    StartTiltAngle := 15
    StartPanSteps := -800
    StartTiltSteps := 133 }

/-- An environment in which every hardware call succeeds and the context
is never cancelled. -/
def envOk : Env := ⟨fun _ => false, fun _ => true, fun _ => true, fun _ => true⟩

/-- Witness for C1: a 2×2 plan in the all-success environment. -/
theorem run_grid_shot_success_count_witness :
    1 ≤ planW.PanColumns ∧ 1 ≤ planW.TiltRows ∧
    (RunGridShot envOk planW).2 = none ∧
    (shotCount (RunGridShot envOk planW).1.trace : ℤ)
      = planW.PanColumns * planW.TiltRows := by
  have h := run_grid_shot_success_count envOk planW (by norm_num [planW])
    (by norm_num [planW]) (fun _ => rfl) (fun _ => rfl) (fun _ => rfl) (fun _ => rfl)
  exact ⟨by norm_num [planW], by norm_num [planW], h.1, h.2⟩

lemma runRows_lastTorque (env : Env) (plan : GridPlan) (gd : Bool) :
    ∀ (rows row : Nat) (st : SeqState), lastTorque st.trace = some true →
      lastTorque (runRows env plan gd rows row st).1.trace = some true := by
  intro rows
  induction rows with
  | zero => intro row st h; simpa [runRows] using h
  | succ n ih =>
    intro row st h
    by_cases hdone : env.ctxDone st.checks = true
    · simpa [runRows, hdone, bumpCheck] using h
    · by_cases hrow : row > 0
      · by_cases htilt : env.tiltOk st.tiltMoves = true
        · by_cases hshoot : env.shootOk st.shootCalls = true
          · simp only [runRows, bumpCheck, emitTilt, emitDisable, emitShoot, emitEnable]
            simp only [hdone, hrow, htilt, hshoot, if_true, Bool.false_eq_true, if_false,
              Option.isSome_none, Bool.true_eq_false, ite_true, ite_false]
            simp only [Bool.not_eq_true] at hdone
            simp [hdone, hrow, htilt, hshoot]
            apply ih
            simp
          · simp only [Bool.not_eq_true] at hshoot
            simp [runRows, hdone, hrow, htilt, hshoot, emitEnable, emitShoot,
              emitDisable, emitTilt, bumpCheck]
        · simp only [Bool.not_eq_true] at htilt
          simpa [runRows, hdone, hrow, htilt, emitTilt, bumpCheck] using h
      · by_cases hshoot : env.shootOk st.shootCalls = true
        · simp only [runRows, bumpCheck, emitDisable, emitShoot, emitEnable]
          simp [hdone, hrow, hshoot]
          apply ih
          simp
        · simp only [Bool.not_eq_true] at hshoot
          simp [runRows, hdone, hrow, hshoot, emitEnable, emitShoot,
            emitDisable, bumpCheck]

lemma runCols_lastTorque (env : Env) (plan : GridPlan) :
    ∀ (cols col : Nat) (st : SeqState), lastTorque st.trace = some true →
      lastTorque (runCols env plan cols col st).1.trace = some true := by
  intro cols
  induction cols with
  | zero => intro col st h; simpa [runCols] using h
  | succ n ih =>
    intro col st h
    by_cases hdone : env.ctxDone st.checks = true
    · simpa [runCols, hdone, bumpCheck] using h
    · have hrow : lastTorque
          (runRows env plan (col % 2 == 0) plan.TiltRows.toNat 0 (bumpCheck st)).1.trace
          = some true := by
        apply runRows_lastTorque
        simpa [bumpCheck] using h
      by_cases hres : (runRows env plan (col % 2 == 0) plan.TiltRows.toNat 0
          (bumpCheck st)).2.isSome = true
      · simpa [runCols, hdone, hres] using hrow
      · by_cases hcol : (col : ℤ) < plan.PanColumns - 1
        · by_cases hpan : env.panOk
              (runRows env plan (col % 2 == 0) plan.TiltRows.toNat 0 (bumpCheck st)).1.panMoves
              = true
          · simp only [runCols, hdone, hres, hcol, hpan, if_true, if_pos,
              Bool.false_eq_true, if_false]
            apply ih
            simpa [emitPan] using hrow
          · simpa [runCols, hdone, hres, hcol, hpan, emitPan] using hrow
        · simp only [runCols, hdone, hres, hcol, if_true, if_pos,
            Bool.false_eq_true, if_false]
          exact ih _ _ hrow

/-- C10: whenever `RunGridShot` returns — success, failed shutter
trigger, failed motor move, or cancellation at a boundary check — the
last holding-torque operation issued before the return is an enable,
never a disable; in particular a failed shutter trigger re-enables
holding torque before the error is propagated. -/
theorem holding_torque_enabled_on_return (env : Env) (plan : GridPlan) :
    lastTorque (RunGridShot env plan).1.trace = some true := by
  have h0 : lastTorque (emitEnable SeqState.init).trace = some true := rfl
  have hini : lastTorque (InitializePosition env plan (emitEnable SeqState.init)).1.trace
      = some true := by
    rw [initPos_lastTorque]
    exact h0
  unfold RunGridShot
  by_cases h : (InitializePosition env plan (emitEnable SeqState.init)).2.isSome = true
  · simpa [h] using hini
  · simp only [h, Bool.false_eq_true, if_false]
    exact runCols_lastTorque env plan _ _ _ hini

lemma runGridShot_cancelled (env : Env) (plan : GridPlan)
    (hc : ∀ k, env.ctxDone k = true) (hp : ∀ k, env.panOk k = true)
    (ht : ∀ k, env.tiltOk k = true) (hm : 1 ≤ plan.PanColumns) :
    (RunGridShot env plan).2 = some RunError.cancelled := by
  have hini := initPos_ok env plan (emitEnable SeqState.init) hp ht
  obtain ⟨n, hn⟩ : ∃ n, plan.PanColumns.toNat = n + 1 :=
    ⟨plan.PanColumns.toNat - 1, by omega⟩
  unfold RunGridShot
  simp [hini, hn, runCols, hc]

/-- C6: CancelRun with no stored cancellation handle is rejected
(409) without signalling anything; with a handle it signals it.  A run
whose context is cancelled terminates with the cancellation outcome
(`RunError.cancelled`, distinct from every hardware error), and the
completion path classifies that outcome as exactly one warning-level
status event whose message contains the word "cancelled". -/
theorem cancel_run_semantics :
    (∀ st : HState, st.captureCancel = false →
        HandleCancel st = (CancelResp.noCapture, false))
    ∧ (∀ st : HState, st.captureCancel = true →
        HandleCancel st = (CancelResp.ok, true))
    ∧ (∀ (env : Env) (plan : GridPlan), (∀ k, env.ctxDone k = true) →
        (∀ k, env.panOk k = true) → (∀ k, env.tiltOk k = true) →
        1 ≤ plan.PanColumns → (RunGridShot env plan).2 = some RunError.cancelled)
    ∧ ((completionActs (some CapErr.canceled)).countP WebAct.isPublish = 1
        ∧ completionActs (some CapErr.canceled)
            = [WebAct.publish Level.warning "Capture cancelled by user",
               WebAct.clearCancel, WebAct.clearRunning]
        ∧ ∃ pre post, "Capture cancelled by user" = pre ++ "cancelled" ++ post) := by
  refine ⟨?_, ?_, ?_, ?_, ?_, ?_⟩
  · intro st h
    simp [HandleCancel, h]
  · intro st h
    simp [HandleCancel, h]
  · intro env plan hc hp ht hm
    exact runGridShot_cancelled env plan hc hp ht hm
  · decide
  · rfl
  · exact ⟨"Capture ", " by user", rfl⟩

/-- An environment whose context is cancelled from the start and whose
hardware calls all succeed. -/
def envCancelled : Env := ⟨fun _ => true, fun _ => true, fun _ => true, fun _ => true⟩

/-- Witness for C6 at concrete handler states and a concrete
already-cancelled 2×2 run. -/
theorem cancel_run_semantics_witness :
    HandleCancel ⟨false, 0, false⟩ = (CancelResp.noCapture, false)
    ∧ HandleCancel ⟨true, 0, true⟩ = (CancelResp.ok, true)
    ∧ (RunGridShot envCancelled planW).2 = some RunError.cancelled :=
  ⟨cancel_run_semantics.1 ⟨false, 0, false⟩ rfl,
   cancel_run_semantics.2.1 ⟨true, 0, true⟩ rfl,
   cancel_run_semantics.2.2.1 envCancelled planW (fun _ => rfl) (fun _ => rfl)
     (fun _ => rfl) (by norm_num [planW])⟩

end PanGo
